import Mathlib

/-!
Verification of the Presto launch-countdown program (`main.py`).

This file gives a shallow embedding, in Lean 4, of the pure logic of the
program: the countdown formatter, the regime threshold, the LED palette
animation (both the idle-loop blended variant `update_nebula_color` and the
countdown-loop discrete variant), the per-frame screen drawing of
`display_countdown`, and the background-image display with its failure
handling.  Machine floats are modelled as rationals; calls to `math.sin` are
modelled by an explicit parameter carrying the sine's value (constrained to
`[-1, 1]` where a bound is needed); Python exceptions are modelled with
`Except`.  Theorems then settle the specification claims about the program.
-/

namespace Main

/-- Truncation toward zero: the semantics of Python's `int()` applied to a
rational value (floats are modelled as rationals). -/
def pyInt (q : ℚ) : ℤ := if 0 ≤ q then ⌊q⌋ else ⌈q⌉

/-- Python's float modulo `a % b` for a positive modulus `b`:
`a - b * ⌊a / b⌋`, which always lies in `[0, b)`. -/
def pyMod (a b : ℚ) : ℚ := a - b * ⌊a / b⌋

/-- Number of backlight LED zones (`NUM_LEDS = 7`, main.py line 105). -/
def NUM_LEDS : ℕ := 7

/-- Panel width from `display.get_bounds()` in full-res mode (480). -/
def WIDTH : ℤ := 480

/-- Panel height from `display.get_bounds()` in full-res mode (480). -/
def HEIGHT : ℤ := 480

/-- The cyclic palette `NEBULA_COLORS` (main.py lines 110-118). -/
def NEBULA_COLORS : List (ℤ × ℤ × ℤ) :=
  [(148, 0, 211), (75, 0, 130), (0, 0, 255), (0, 255, 255),
   (255, 20, 147), (255, 69, 0), (128, 0, 128)]

/-- `lerp_color(color1, color2, t)` (main.py lines 121-128): componentwise
`int(c1 + (c2 - c1) * t)`. -/
def lerp_color (c1 c2 : ℤ × ℤ × ℤ) (t : ℚ) : ℤ × ℤ × ℤ :=
  (pyInt ((c1.1 : ℚ) + ((c2.1 : ℚ) - (c1.1 : ℚ)) * t),
   pyInt ((c1.2.1 : ℚ) + ((c2.2.1 : ℚ) - (c1.2.1 : ℚ)) * t),
   pyInt ((c1.2.2 : ℚ) + ((c2.2.2 : ℚ) - (c1.2.2 : ℚ)) * t))

/-- Countdown field `days = remaining_seconds // 86400` (main.py line 550). -/
def days (remaining_seconds : ℕ) : ℕ := remaining_seconds / 86400

/-- Countdown field `hours = (remaining_seconds % 86400) // 3600`
(main.py line 551). -/
def hours (remaining_seconds : ℕ) : ℕ := remaining_seconds % 86400 / 3600

/-- Countdown field `minutes = (remaining_seconds % 3600) // 60`
(main.py line 552). -/
def minutes (remaining_seconds : ℕ) : ℕ := remaining_seconds % 3600 / 60

/-- Countdown field `seconds = remaining_seconds % 60` (main.py line 553). -/
def seconds (remaining_seconds : ℕ) : ℕ := remaining_seconds % 60

/-- Python's `f"{n:02}"` formatting of a nonnegative integer: the decimal
representation left-padded with a zero to a minimum width of two characters
(main.py line 554). -/
def pad2 (n : ℕ) : String := if n < 10 then "0" ++ Nat.repr n else Nat.repr n

/-- Visual regime of the countdown: ambient nebula cycling vs. urgent red
warning pulse. -/
inductive Regime
  | AMBIENT
  | WARNING
  deriving DecidableEq

/-- Regime selection from the remaining seconds: the branch
`if remaining_seconds < 1800` of main.py line 579 chooses the red pulse
(WARNING); otherwise the nebula effect runs (AMBIENT). -/
def regime (remaining_seconds : ℤ) : Regime :=
  if remaining_seconds < 1800 then Regime.WARNING else Regime.AMBIENT

/-- Countdown evaluation: `remaining_seconds = int(launch_time - now)`
(main.py line 532, integer-valued since both times are integer Unix seconds)
paired with the active regime. -/
def evaluate (launch_time now : ℤ) : ℤ × Regime :=
  (launch_time - now, regime (launch_time - now))

/-- Warning-pulse red channel `int(100 + 100 * math.sin(pulse_step))`
(main.py line 581); `sinPulse` carries the value of `math.sin(pulse_step)`. -/
def red_intensity (sinPulse : ℚ) : ℤ := pyInt (100 + 100 * sinPulse)

/-- Unused-but-computed `int(200 + 55 * math.sin(pulse_step))`
(main.py line 580). -/
def pulse_intensity (sinPulse : ℚ) : ℤ := pyInt (200 + 55 * sinPulse)

/-- Ambient-branch LED color of the countdown loop (main.py lines 587-589):
`color_index = int((nebula_step + i) % len(NEBULA_COLORS))` followed by the
un-blended lookup `NEBULA_COLORS[color_index]` (the index is proved in
range, so the `getD` default is never taken). -/
def countdownAmbientLed (nebula_step : ℚ) (i : ℕ) : ℤ × ℤ × ℤ :=
  let color_index := pyInt (pyMod (nebula_step + i) (NEBULA_COLORS.length))
  NEBULA_COLORS.getD color_index.toNat (0, 0, 0)

/-- One LED commit of the countdown frame loop (main.py lines 578-591):
the red pulse when `remaining_seconds < 1800`, the discrete nebula lookup
otherwise.  `sinPulse` carries the value of `math.sin(pulse_step)`. -/
def ledFrame (remaining_seconds : ℤ) (nebula_step sinPulse : ℚ) (i : ℕ) :
    ℤ × ℤ × ℤ :=
  if remaining_seconds < 1800 then (red_intensity sinPulse, 0, 0)
  else countdownAmbientLed nebula_step i

/-- Per-LED color of the idle-loop effect `update_nebula_color`
(main.py lines 136-166): a componentwise linear interpolation between
consecutive palette stops at fraction `alpha`, then a sine brightness factor
`0.5 + 0.5 * math.sin(nebula_step + i * 0.5)`; `sinVal` carries that sine's
value. -/
def nebulaLedColor (nebula_step sinVal : ℚ) (i : ℕ) : ℤ × ℤ × ℤ :=
  let idx_float := pyMod (nebula_step + i) (NEBULA_COLORS.length)
  let idx_int := pyInt idx_float
  let alpha := idx_float - idx_int
  let next_idx := (idx_int + 1) % (NEBULA_COLORS.length : ℤ)
  let c1 := NEBULA_COLORS.getD idx_int.toNat (0, 0, 0)
  let c2 := NEBULA_COLORS.getD next_idx.toNat (0, 0, 0)
  let r := pyInt ((c1.1 : ℚ) + ((c2.1 : ℚ) - (c1.1 : ℚ)) * alpha)
  let g := pyInt ((c1.2.1 : ℚ) + ((c2.2.1 : ℚ) - (c1.2.1 : ℚ)) * alpha)
  let b := pyInt ((c1.2.2 : ℚ) + ((c2.2.2 : ℚ) - (c1.2.2 : ℚ)) * alpha)
  let brightness := 1/2 + 1/2 * sinVal
  (pyInt ((r : ℚ) * brightness), pyInt ((g : ℚ) * brightness),
   pyInt ((b : ℚ) * brightness))

/-- Per-tick increment `nebula_speed = 0.02` of the nebula phase
(main.py lines 134, 169 and 591), as the exact rational `2/100`. -/
def nebula_speed : ℚ := 2 / 100

/-- Whole-strip effect of one `update_nebula_color()` call: the seven LED
colors together with the advanced `nebula_step` (main.py lines 131-169). -/
def update_nebula_color (nebula_step : ℚ) (sinVal : ℕ → ℚ) :
    (ℕ → ℤ × ℤ × ℤ) × ℚ :=
  (fun i => nebulaLedColor nebula_step (sinVal i) i, nebula_step + nebula_speed)

/-- Mutable state of one `display_countdown` session: the global
`nebula_step` and the session-local `pulse_step`. -/
structure CountdownLoopState where
  nebula_step : ℚ
  pulse_step : ℚ
  deriving DecidableEq

/-- Entry of `display_countdown` (main.py lines 502-528): `pulse_step = 0`
is a fresh local (line 527) while the global `nebula_step` is left untouched
(the reset formerly at line 528 was removed). -/
def countdownSessionInit (nebula_step : ℚ) : CountdownLoopState :=
  { nebula_step := nebula_step, pulse_step := 0 }

/-- Every operation of the process lifetime that runs while `nebula_step`
is live: idle-loop ticks (`update_nebula_color`, main.py line 710),
countdown-loop ambient and warning ticks (lines 578-591), countdown-session
start and expiry (lines 502-536), and a fetch cycle of the main loop. -/
inductive LifecycleOp
  | idleTick
  | ambientTick
  | warningTick
  | sessionStart
  | sessionExpire
  | fetchCycle
  deriving DecidableEq

/-- Initial value of the global `nebula_step` at process start
(main.py line 20). -/
def nebulaStepInit : ℚ := 0

/-- Effect of each lifecycle operation on the global `nebula_step`: the two
animation ticks add `nebula_speed` (main.py lines 169 and 591); no other
operation assigns it. -/
def nebulaStepAfterOp : LifecycleOp → ℚ → ℚ
  | LifecycleOp.idleTick, s => s + nebula_speed
  | LifecycleOp.ambientTick, s => s + nebula_speed
  | LifecycleOp.warningTick, s => s
  | LifecycleOp.sessionStart, s => s
  | LifecycleOp.sessionExpire, s => s
  | LifecycleOp.fetchCycle, s => s

/-- Value of `nebula_step` after running a sequence of lifecycle
operations. -/
def runLifecycle (ops : List LifecycleOp) (s : ℚ) : ℚ :=
  List.foldl (fun a o => nebulaStepAfterOp o a) s ops

/-- Pens created at main.py lines 209-213. -/
inductive Pen
  | WHITE
  | BLACK
  | DARKGREY
  | DARKERGREY
  | GREEN
  deriving DecidableEq

/-- Primitive display-surface operations issued by the program. -/
inductive RenderOp
  | clearScreen
  | setPen (p : Pen)
  | fillRect (x y w h : ℤ)
  | setFont (size : ℕ)
  | text (s : String) (x y : ℤ)
  | decodeImage (path : String)
  | update
  deriving DecidableEq

/-- Text widths measured once at countdown setup (main.py lines 516-518) and
the label widths measured in the label loop (line 571): the width of "T-",
of each of the four "00" fields, of ":", and of the four labels. -/
structure Measured where
  tDash : ℕ
  num0 : ℕ
  num1 : ℕ
  num2 : ℕ
  num3 : ℕ
  colon : ℕ
  lab0 : ℕ
  lab1 : ℕ
  lab2 : ℕ
  lab3 : ℕ
  deriving DecidableEq

/-- Empirical horizontal correction `x_offset = -22` (main.py line 521). -/
def x_offset : ℤ := -22

/-- Countdown block width (main.py line 522):
`t_dash_width + sum(num_widths) + colon_width * 3 + 15 * 4`. -/
def total_countdown_width (m : Measured) : ℤ :=
  (m.tDash : ℤ) + ((m.num0 : ℤ) + (m.num1 : ℤ) + (m.num2 : ℤ) + (m.num3 : ℤ))
    + (m.colon : ℤ) * 3 + 15 * 4

/-- Countdown block left edge (main.py line 523):
`int((WIDTH - total_countdown_width) // 2) + x_offset`. -/
def countdown_x_start (m : Measured) : ℤ :=
  Int.fdiv (WIDTH - total_countdown_width m) 2 + x_offset

/-- Countdown text baseline `int(HEIGHT // 2 - 30)` (main.py line 524). -/
def text_y : ℤ := Int.fdiv HEIGHT 2 - 30

/-- Label baseline `text_y + 30` (main.py line 525). -/
def label_y : ℤ := text_y + 30

/-- Display-surface operations of ONE iteration of the countdown frame loop
(main.py lines 538-594, the `remaining_seconds > 0` path), in program order:
the dark-grey countdown rectangle, the "T-" literal, the four zero-padded
fields with colon separators, the four labels, and the final
`presto.update()`.  LED writes are not display-surface operations and are
modelled separately; no other drawing happens inside the loop. -/
def frameScreenOps (m : Measured) (r : ℕ) : List RenderOp :=
  let cxs := countdown_x_start m
  let xN0 := cxs + (m.tDash : ℤ) + 15
  let xC0 := xN0 + (m.num0 : ℤ) + 15
  let xN1 := xC0 + (m.colon : ℤ) + 15
  let xC1 := xN1 + (m.num1 : ℤ) + 15
  let xN2 := xC1 + (m.colon : ℤ) + 15
  let xC2 := xN2 + (m.num2 : ℤ) + 15
  let xN3 := xC2 + (m.colon : ℤ) + 15
  [RenderOp.setPen Pen.DARKERGREY,
   RenderOp.fillRect (cxs - 10) (text_y - 35) (total_countdown_width m + 70) 80,
   RenderOp.setFont 35,
   RenderOp.setPen Pen.WHITE,
   RenderOp.text "T-" cxs text_y,
   RenderOp.text (pad2 (days r)) xN0 text_y,
   RenderOp.text ":" xC0 text_y,
   RenderOp.text (pad2 (hours r)) xN1 text_y,
   RenderOp.text ":" xC1 text_y,
   RenderOp.text (pad2 (minutes r)) xN2 text_y,
   RenderOp.text ":" xC2 text_y,
   RenderOp.text (pad2 (seconds r)) xN3 text_y,
   RenderOp.setFont 18,
   RenderOp.setPen Pen.DARKGREY,
   RenderOp.text "DAYS" (xN0 + ((m.num0 / 2 : ℕ) : ℤ) - ((m.lab0 / 2 : ℕ) : ℤ)) label_y,
   RenderOp.text "HOURS" (xN1 + ((m.num1 / 2 : ℕ) : ℤ) - ((m.lab1 / 2 : ℕ) : ℤ)) label_y,
   RenderOp.text "MINS" (xN2 + ((m.num2 / 2 : ℕ) : ℤ) - ((m.lab2 / 2 : ℕ) : ℤ)) label_y,
   RenderOp.text "SECS" (xN3 + ((m.num3 / 2 : ℕ) : ℤ) - ((m.lab3 / 2 : ℕ) : ℤ)) label_y,
   RenderOp.update]

/-- Python's `str.strip()` on a character list: whitespace removed from both
ends (main.py line 430). -/
def pyStrip (s : List Char) : List Char :=
  (((s.dropWhile Char.isWhitespace).reverse).dropWhile Char.isWhitespace).reverse

/-- Python's `str.split("/")` on a character list (main.py line 430). -/
def pySplitSlash : List Char → List (List Char)
  | [] => [[]]
  | c :: cs =>
    match pySplitSlash cs with
    | [] => [[]]
    | g :: gs => if c = '/' then [] :: g :: gs else (c :: g) :: gs

/-- The `file_name = image_path.strip().split("/")[-1]` computation of
`display_background` (main.py line 430); `pySplitSlash` never returns an
empty list, so the `[-1]` index is the `getLastD`. -/
def bgFileName (path : String) : List Char :=
  (pySplitSlash (pyStrip path.data)).getLastD []

/-- Python's `str.lower()` on a character list (main.py lines 445, 465). -/
def pyLower (s : List Char) : List Char := s.map Char.toLower

/-- Python's `str.endswith(suffix)` on character lists. -/
def pyEndsWith (s suffix : List Char) : Bool := List.isSuffixOf suffix s

/-- Python exception classes distinguished by the handlers of
`display_background` (main.py lines 486-494): `OSError`, `MemoryError`, and
the catch-all for anything else. -/
inductive PyErr
  | osError
  | memoryError
  | other
  deriving DecidableEq

/-- Categories used by `boot_log(category, message)` calls relevant to the
background path. -/
inductive LogCat
  | ERROR
  | UI
  deriving DecidableEq

/-- True exactly for a log entry emitted with the ERROR category. -/
def isErrorLog (l : LogCat × String) : Bool :=
  match l.1 with
  | LogCat.ERROR => true
  | LogCat.UI => false

/-- Environment of one `display_background(image_path)` call: whether the
argument is a string and its value, the SD directory listing
(`uos.listdir(SD_DIR)`), and the outcomes of the decoder calls
(open/dimension queries and the decode itself), which either return — for
PNG, the declared width and height — or raise. -/
structure BgEnv where
  pathIsString : Bool
  path : String
  listing : List (List Char)
  pngOpen : Except PyErr (ℕ × ℕ)
  pngDecode : Except PyErr Unit
  jpegOpen : Except PyErr (ℕ × ℕ)
  jpegDecode : Except PyErr Unit

/-- Observable outcome of a `display_background` call that returned: the
log entries it emitted, whether it cleared the screen, and, when a decode
was issued, the decode origin and integer scale. -/
structure BgOutcome where
  logs : List (LogCat × String)
  cleared : Bool
  decodedAt : Option (ℤ × ℤ × ℕ)
  deriving DecidableEq

/-- PNG placement (main.py lines 450-459): `scaled_w = w * 2`,
`scaled_h = h * 2`, origin `((WIDTH - scaled_w) // 2, (HEIGHT - scaled_h) // 2)`
computed from the scaled dimensions. -/
def pngPlacement (w h : ℕ) : ℤ × ℤ :=
  (Int.fdiv (WIDTH - (w : ℤ) * 2) 2, Int.fdiv (HEIGHT - (h : ℤ) * 2) 2)

/-- JPEG placement (main.py lines 469-471): origin
`((WIDTH - w) // 2, (HEIGHT - h) // 2)` at full scale. -/
def jpegPlacement (w h : ℕ) : ℤ × ℤ :=
  (Int.fdiv (WIDTH - (w : ℤ)) 2, Int.fdiv (HEIGHT - (h : ℤ)) 2)

/-- The `try:` block of `display_background` (main.py lines 443-483):
dispatch on the lowercased extension; PNG decodes at the 2x-scaled centered
origin, JPEG at full scale; an unrecognized extension logs an error and
returns normally; any decoder error propagates out of the block. -/
def bgTry (env : BgEnv) : Except PyErr (List (LogCat × String) × Option (ℤ × ℤ × ℕ)) :=
  if pyEndsWith (pyLower env.path.data) ".png".data then
    match env.pngOpen with
    | Except.error e => Except.error e
    | Except.ok (w, h) =>
      match env.pngDecode with
      | Except.error e => Except.error e
      | Except.ok _ =>
        Except.ok ([(LogCat.UI, "Image displayed successfully.")],
          some ((pngPlacement w h).1, (pngPlacement w h).2, 2))
  else if pyEndsWith (pyLower env.path.data) ".jpg".data
      || pyEndsWith (pyLower env.path.data) ".jpeg".data then
    match env.jpegOpen with
    | Except.error e => Except.error e
    | Except.ok (w, h) =>
      match env.jpegDecode with
      | Except.error e => Except.error e
      | Except.ok _ =>
        Except.ok ([(LogCat.UI, "Image displayed successfully.")],
          some ((jpegPlacement w h).1, (jpegPlacement w h).2, 1))
  else
    Except.ok ([(LogCat.ERROR, "Unsupported image format.")], none)

/-- The whole `display_background` (main.py lines 417-494): early logged
returns for a non-string path and for a file absent from the SD listing; the
`try:` block wrapped by handlers for `OSError`, `MemoryError` and a bare
`except:` that each log an error and return — so every raise inside the
block is caught and the function always returns (`Except.ok`). -/
def display_background (env : BgEnv) : Except PyErr BgOutcome :=
  if env.pathIsString = false then
    Except.ok ⟨[(LogCat.ERROR, "Invalid image path (not a string).")], false, none⟩
  else if bgFileName env.path ∉ env.listing then
    Except.ok ⟨[(LogCat.ERROR, "Image file not found on SD.")], false, none⟩
  else
    match bgTry env with
    | Except.ok (ls, dec) =>
      Except.ok ⟨(LogCat.UI, "Attempting to display.") :: ls, true, dec⟩
    | Except.error PyErr.osError =>
      Except.ok ⟨[(LogCat.UI, "Attempting to display."),
        (LogCat.ERROR, "OSError while opening or decoding the image.")], true, none⟩
    | Except.error PyErr.memoryError =>
      Except.ok ⟨[(LogCat.UI, "Attempting to display."),
        (LogCat.ERROR, "MemoryError! Try smaller images or half-scale decode.")], true, none⟩
    | Except.error PyErr.other =>
      Except.ok ⟨[(LogCat.UI, "Attempting to display."),
        (LogCat.ERROR, "Unknown error while decoding the image.")], true, none⟩

/-- Calls issued by `display_final_ui` (main.py lines 667-684): background
display only when the image path is a string, then always the info text,
the countdown, and the final update. -/
inductive SessionCall
  | background
  | drawInfo
  | countdown
  | update
  deriving DecidableEq

/-- Call sequence of `display_final_ui` as a function of whether
`image_path` is a string. -/
def display_final_ui_calls (imagePathIsString : Bool) : List SessionCall :=
  (if imagePathIsString then [SessionCall.background] else [])
    ++ [SessionCall.drawInfo, SessionCall.countdown, SessionCall.update]

/-- Failure modes of the background path enumerated by the claim: non-string
path, backing file missing from the SD listing, a decoder call that raises,
or an extension that is neither PNG nor JPEG (unsupported format). -/
def bgFails (env : BgEnv) : Prop :=
  env.pathIsString = false
  ∨ bgFileName env.path ∉ env.listing
  ∨ (∃ e, bgTry env = Except.error e)
  ∨ (pyEndsWith (pyLower env.path.data) ".png".data = false
     ∧ pyEndsWith (pyLower env.path.data) ".jpg".data = false
     ∧ pyEndsWith (pyLower env.path.data) ".jpeg".data = false)

/-- C1: the countdown evaluation reports WARNING exactly when the integer
remaining seconds is strictly below 1800 and AMBIENT otherwise; at
`remaining_seconds = 1800` the regime is AMBIENT and at `1799` it is WARNING
(a strict threshold recomputed from the clock each frame, no hysteresis). -/
theorem regime_warning_iff_below_1800 (launch_time now : ℤ) :
    ((evaluate launch_time now).2 = Regime.WARNING ↔ launch_time - now < 1800)
    ∧ ((evaluate launch_time now).2 = Regime.AMBIENT ↔ 1800 ≤ launch_time - now)
    ∧ regime 1800 = Regime.AMBIENT ∧ regime 1799 = Regime.WARNING := by
  refine ⟨?_, ?_, by decide, by decide⟩ <;>
    simp only [evaluate, regime] <;> split <;> simp_all

lemma toDigitsCore_length_ge (b : ℕ) :
    ∀ (f m : ℕ) (l : List Char), l.length ≤ (Nat.toDigitsCore b f m l).length := by
  intro f
  induction f with
  | zero => intro m l; simp [Nat.toDigitsCore]
  | succ f ih =>
    intro m l
    simp only [Nat.toDigitsCore]
    split
    · simp
    · exact le_trans (by simp) (ih (m / b) (Nat.digitChar (m % b) :: l))

lemma toDigitsCore_length_gt (b : ℕ) (f m : ℕ) (l : List Char) (hf : 0 < f) :
    l.length + 1 ≤ (Nat.toDigitsCore b f m l).length := by
  cases f with
  | zero => exact absurd hf (by simp)
  | succ f =>
    simp only [Nat.toDigitsCore]
    split
    · simp
    · have h := toDigitsCore_length_ge b f (m / b) (Nat.digitChar (m % b) :: l)
      simpa using h

lemma toDigitsCore_succ (b f n : ℕ) (l : List Char) :
    Nat.toDigitsCore b (f + 1) n l =
      if n / b = 0 then Nat.digitChar (n % b) :: l
      else Nat.toDigitsCore b f (n / b) (Nat.digitChar (n % b) :: l) := rfl

lemma repr_length_ge_three (m : ℕ) : 3 ≤ (Nat.repr (m + 100)).length := by
  have h1 : (m + 100) / 10 ≠ 0 := by omega
  simp only [Nat.repr, Nat.toDigits, String.length, List.asString]
  rw [toDigitsCore_succ, if_neg h1]
  rw [show m + 100 = m + 99 + 1 from by omega]
  rw [toDigitsCore_succ, if_neg (by omega : ¬((m + 99 + 1) / 10 / 10 = 0))]
  have h := toDigitsCore_length_gt 10 (m + 99) ((m + 99 + 1) / 10 / 10)
    (Nat.digitChar ((m + 99 + 1) / 10 % 10) :: [Nat.digitChar ((m + 99 + 1) % 10)]) (by omega)
  simpa using h

lemma pad2_length_two : ∀ n : ℕ, n < 100 → (pad2 n).length = 2 := by decide

lemma pad2_eq_repr_of_ge_ten (n : ℕ) (h : 10 ≤ n) : pad2 n = Nat.repr n := by
  simp only [pad2]
  rw [if_neg (by omega)]

lemma pad2_length_ge_two (n : ℕ) : 2 ≤ (pad2 n).length := by
  by_cases h : n < 100
  · exact le_of_eq (pad2_length_two n h).symm
  · obtain ⟨m, rfl⟩ : ∃ m, n = m + 100 := ⟨n - 100, by omega⟩
    rw [pad2_eq_repr_of_ge_ten _ (by omega)]
    exact le_trans (by norm_num) (repr_length_ge_three m)

/-- C2: for every `remaining_seconds ≥ 0` the derived display fields satisfy
the reconstruction identity `days*86400 + hours*3600 + minutes*60 + seconds =
remaining_seconds`, with hours in `[0,23]` and minutes/seconds in `[0,59]`;
each field formats as a zero-padded value at least two digits wide (exactly
two when the value is below 100, which always holds for hours, minutes and
seconds), while days is never capped: any days value above 99 formats as its
raw decimal representation, which is at least three characters wide. -/
theorem countdown_fields_spec (r m : ℕ) :
    days r * 86400 + hours r * 3600 + minutes r * 60 + seconds r = r
    ∧ hours r ≤ 23 ∧ minutes r ≤ 59 ∧ seconds r ≤ 59
    ∧ (pad2 (hours r)).length = 2 ∧ (pad2 (minutes r)).length = 2
    ∧ (pad2 (seconds r)).length = 2 ∧ 2 ≤ (pad2 (days r)).length
    ∧ pad2 (m + 100) = Nat.repr (m + 100)
    ∧ 3 ≤ (pad2 (m + 100)).length := by
  have hh : hours r ≤ 23 := by simp only [hours]; omega
  have hm : minutes r ≤ 59 := by simp only [minutes]; omega
  have hs : seconds r ≤ 59 := by simp only [seconds]; omega
  refine ⟨?_, hh, hm, hs, pad2_length_two _ (by omega), pad2_length_two _ (by omega),
    pad2_length_two _ (by omega), pad2_length_ge_two _,
    pad2_eq_repr_of_ge_ten _ (by omega), ?_⟩
  · simp only [days, hours, minutes, seconds]; omega
  · rw [pad2_eq_repr_of_ge_ten _ (by omega)]
    exact repr_length_ge_three m

lemma nebulaStepAfterOp_le (o : LifecycleOp) (s : ℚ) : s ≤ nebulaStepAfterOp o s := by
  cases o <;> simp [nebulaStepAfterOp, nebula_speed] <;> norm_num

/-- C3: the nebula animation phase is monotonically non-decreasing over the
whole process lifetime: it starts at 0 once, every single lifecycle
operation (regime switch, session start, session expiry, idle loop, the two
tick kinds) leaves it equal or larger, and hence any sequence of operations
leaves it at least where it started — no operation resets or decreases it. -/
theorem nebula_step_never_reset :
    nebulaStepInit = 0
    ∧ (∀ (o : LifecycleOp) (s : ℚ), s ≤ nebulaStepAfterOp o s)
    ∧ (∀ (ops : List LifecycleOp) (s : ℚ), s ≤ runLifecycle ops s)
    ∧ (∀ (ns : ℚ), (countdownSessionInit ns).nebula_step = ns)
    ∧ (∀ (ns : ℚ) (sinVal : ℕ → ℚ),
        (update_nebula_color ns sinVal).2 = ns + nebula_speed) := by
  refine ⟨rfl, nebulaStepAfterOp_le, ?_, fun ns => rfl, fun ns sinVal => rfl⟩
  intro ops
  induction ops with
  | nil => intro s; simp [runLifecycle]
  | cons o rest ih =>
    intro s
    have h1 : runLifecycle (o :: rest) s = runLifecycle rest (nebulaStepAfterOp o s) := rfl
    rw [h1]
    exact le_trans (nebulaStepAfterOp_le o s) (ih _)

lemma pyMod_nonneg (a b : ℚ) (hb : 0 < b) : 0 ≤ pyMod a b := by
  have h1 : ((⌊a / b⌋ : ℚ)) ≤ a / b := Int.floor_le _
  have h2 : b * ((⌊a / b⌋ : ℚ)) ≤ b * (a / b) := mul_le_mul_of_nonneg_left h1 hb.le
  have h3 : b * (a / b) = a := by field_simp
  simp only [pyMod]
  linarith

lemma pyMod_lt (a b : ℚ) (hb : 0 < b) : pyMod a b < b := by
  have h1 : a / b < (⌊a / b⌋ : ℚ) + 1 := Int.lt_floor_add_one _
  have h2 : b * (a / b) < b * ((⌊a / b⌋ : ℚ) + 1) := mul_lt_mul_of_pos_left h1 hb
  have h3 : b * (a / b) = a := by field_simp
  simp only [pyMod]
  nlinarith

lemma pyInt_between (q : ℚ) (n : ℤ) (h0 : 0 ≤ q) (hn : q ≤ (n : ℚ)) :
    0 ≤ pyInt q ∧ pyInt q ≤ n := by
  have hq : pyInt q = ⌊q⌋ := by simp only [pyInt]; rw [if_pos h0]
  rw [hq]
  refine ⟨Int.le_floor.mpr (by exact_mod_cast h0), ?_⟩
  calc ⌊q⌋ ≤ ⌊(n : ℚ)⌋ := Int.floor_mono hn
    _ = n := Int.floor_intCast n

lemma lerp_chan_range (x y : ℤ) (α : ℚ) (hx : 0 ≤ x) (hx' : x ≤ 255)
    (hy : 0 ≤ y) (hy' : y ≤ 255) (ha : 0 ≤ α) (ha' : α ≤ 1) :
    0 ≤ pyInt ((x : ℚ) + ((y : ℚ) - (x : ℚ)) * α)
    ∧ pyInt ((x : ℚ) + ((y : ℚ) - (x : ℚ)) * α) ≤ 255 := by
  have cx : (0 : ℚ) ≤ (x : ℚ) := by exact_mod_cast hx
  have cx' : (x : ℚ) ≤ 255 := by exact_mod_cast hx'
  have cy : (0 : ℚ) ≤ (y : ℚ) := by exact_mod_cast hy
  have cy' : (y : ℚ) ≤ 255 := by exact_mod_cast hy'
  have e1 : 0 ≤ (x : ℚ) + ((y : ℚ) - (x : ℚ)) * α := by nlinarith
  have e2 : (x : ℚ) + ((y : ℚ) - (x : ℚ)) * α ≤ 255 := by nlinarith
  exact pyInt_between _ 255 e1 (by exact_mod_cast e2)

lemma scale_chan_range (r : ℤ) (f : ℚ)
    (hr0 : 0 ≤ r) (hr' : r ≤ 255) (hf : 0 ≤ f) (hf' : f ≤ 1) :
    0 ≤ pyInt ((r : ℚ) * f) ∧ pyInt ((r : ℚ) * f) ≤ 255 := by
  have cr : (0 : ℚ) ≤ (r : ℚ) := by exact_mod_cast hr0
  have cr' : (r : ℚ) ≤ 255 := by exact_mod_cast hr'
  have e1 : 0 ≤ (r : ℚ) * f := mul_nonneg cr hf
  have e2 : (r : ℚ) * f ≤ 255 := by nlinarith
  exact pyInt_between _ 255 e1 (by exact_mod_cast e2)

lemma nebula_getD_ok (k : ℕ) :
    0 ≤ (NEBULA_COLORS.getD k (0, 0, 0)).1 ∧ (NEBULA_COLORS.getD k (0, 0, 0)).1 ≤ 255
    ∧ 0 ≤ (NEBULA_COLORS.getD k (0, 0, 0)).2.1 ∧ (NEBULA_COLORS.getD k (0, 0, 0)).2.1 ≤ 255
    ∧ 0 ≤ (NEBULA_COLORS.getD k (0, 0, 0)).2.2 ∧ (NEBULA_COLORS.getD k (0, 0, 0)).2.2 ≤ 255 := by
  have hL : NEBULA_COLORS.length = 7 := rfl
  by_cases h : k < 7
  · interval_cases k <;> decide
  · rw [List.getD_eq_default _ _ (by omega)]
    decide

/-- C9: the ambient brightness factor `0.5 + 0.5 * sin(phase + i * 0.5)`
(with `sinVal` the sine's value, which lies in `[-1, 1]`) is always within
`[0, 1]`, and consequently every channel of the idle-path LED color — a
palette interpolation scaled by this factor and truncated — remains within
`[0, 255]` and is never negative. -/
theorem nebula_brightness_channels_in_range (nebula_step sinVal : ℚ) (i : ℕ)
    (hs1 : -1 ≤ sinVal) (hs2 : sinVal ≤ 1) :
    (0 ≤ 1/2 + 1/2 * sinVal ∧ 1/2 + 1/2 * sinVal ≤ 1)
    ∧ (0 ≤ (nebulaLedColor nebula_step sinVal i).1
        ∧ (nebulaLedColor nebula_step sinVal i).1 ≤ 255)
    ∧ (0 ≤ (nebulaLedColor nebula_step sinVal i).2.1
        ∧ (nebulaLedColor nebula_step sinVal i).2.1 ≤ 255)
    ∧ (0 ≤ (nebulaLedColor nebula_step sinVal i).2.2
        ∧ (nebulaLedColor nebula_step sinVal i).2.2 ≤ 255) := by
  have hb1 : (0:ℚ) ≤ 1/2 + 1/2 * sinVal := by linarith
  have hb2 : 1/2 + 1/2 * sinVal ≤ 1 := by linarith
  have hlen : (0:ℚ) < ((NEBULA_COLORS.length : ℕ) : ℚ) := by norm_num [NEBULA_COLORS]
  have hA0 : 0 ≤ pyMod (nebula_step + (i : ℚ)) ((NEBULA_COLORS.length : ℕ) : ℚ) :=
    pyMod_nonneg _ _ hlen
  have hint : pyInt (pyMod (nebula_step + (i : ℚ)) ((NEBULA_COLORS.length : ℕ) : ℚ))
      = ⌊pyMod (nebula_step + (i : ℚ)) ((NEBULA_COLORS.length : ℕ) : ℚ)⌋ := by
    simp only [pyInt]
    rw [if_pos hA0]
  have hα0 : 0 ≤ pyMod (nebula_step + (i : ℚ)) ((NEBULA_COLORS.length : ℕ) : ℚ)
      - ((pyInt (pyMod (nebula_step + (i : ℚ)) ((NEBULA_COLORS.length : ℕ) : ℚ)) : ℤ) : ℚ) := by
    rw [hint]
    exact sub_nonneg.mpr (Int.floor_le _)
  have hα1 : pyMod (nebula_step + (i : ℚ)) ((NEBULA_COLORS.length : ℕ) : ℚ)
      - ((pyInt (pyMod (nebula_step + (i : ℚ)) ((NEBULA_COLORS.length : ℕ) : ℚ)) : ℤ) : ℚ) ≤ 1 := by
    rw [hint]
    have h := Int.lt_floor_add_one (pyMod (nebula_step + (i : ℚ)) ((NEBULA_COLORS.length : ℕ) : ℚ))
    linarith
  obtain ⟨p1, p2, p3, p4, p5, p6⟩ := nebula_getD_ok
    (pyInt (pyMod (nebula_step + (i : ℚ)) ((NEBULA_COLORS.length : ℕ) : ℚ))).toNat
  obtain ⟨q1, q2, q3, q4, q5, q6⟩ := nebula_getD_ok
    ((pyInt (pyMod (nebula_step + (i : ℚ)) ((NEBULA_COLORS.length : ℕ) : ℚ)) + 1)
      % ((NEBULA_COLORS.length : ℕ) : ℤ)).toNat
  refine ⟨⟨hb1, hb2⟩, ?_, ?_, ?_⟩
  · simp only [nebulaLedColor]
    have h := lerp_chan_range _ _ _ p1 p2 q1 q2 hα0 hα1
    exact scale_chan_range _ _ h.1 h.2 hb1 hb2
  · simp only [nebulaLedColor]
    have h := lerp_chan_range _ _ _ p3 p4 q3 q4 hα0 hα1
    exact scale_chan_range _ _ h.1 h.2 hb1 hb2
  · simp only [nebulaLedColor]
    have h := lerp_chan_range _ _ _ p5 p6 q5 q6 hα0 hα1
    exact scale_chan_range _ _ h.1 h.2 hb1 hb2

/-- Witness for C9 at the concrete input `nebula_step = 0`, `sinVal = 0`,
`i = 0` (sine value 0 is attained, e.g. at phase 0). -/
theorem nebula_brightness_channels_in_range_witness :
    (-1 ≤ (0:ℚ)) ∧ ((0:ℚ) ≤ 1)
    ∧ ((0 ≤ 1/2 + 1/2 * (0:ℚ) ∧ 1/2 + 1/2 * (0:ℚ) ≤ 1)
      ∧ (0 ≤ (nebulaLedColor 0 0 0).1 ∧ (nebulaLedColor 0 0 0).1 ≤ 255)
      ∧ (0 ≤ (nebulaLedColor 0 0 0).2.1 ∧ (nebulaLedColor 0 0 0).2.1 ≤ 255)
      ∧ (0 ≤ (nebulaLedColor 0 0 0).2.2 ∧ (nebulaLedColor 0 0 0).2.2 ≤ 255))
    ∧ nebulaLedColor 0 0 0 = (74, 0, 105) :=
  ⟨by decide, by decide,
   nebula_brightness_channels_in_range 0 0 0 (by decide) (by decide),
   by norm_num [nebulaLedColor, pyMod, pyInt, NEBULA_COLORS]⟩

/-- C10: `pulse_step` is session-local: entering `display_countdown` always
reinitializes it to 0 while leaving the global `nebula_step` alone, so each
session's WARNING modulation restarts from `sin 0 = 0`, giving an initial
red channel of `int(100 + 100 * 0) = 100`; and for any sine value in
`[-1, 1]` the pushed red value `int(100 + 100 * sin(pulse_step))` lies in
`[0, 200]`. -/
theorem pulse_step_session_local (ns sinPulse : ℚ)
    (h1 : -1 ≤ sinPulse) (h2 : sinPulse ≤ 1) :
    (countdownSessionInit ns).pulse_step = 0
    ∧ (countdownSessionInit ns).nebula_step = ns
    ∧ red_intensity 0 = 100
    ∧ 0 ≤ red_intensity sinPulse ∧ red_intensity sinPulse ≤ 200 := by
  have e1 : (0:ℚ) ≤ 100 + 100 * sinPulse := by linarith
  have e2 : (100:ℚ) + 100 * sinPulse ≤ ((200:ℤ) : ℚ) := by push_cast; linarith
  have h := pyInt_between _ 200 e1 e2
  exact ⟨rfl, rfl, by norm_num [red_intensity, pyInt], h.1, h.2⟩

/-- Witness for C10 at `ns = 3`, `sinPulse = 1` (so the pushed red value is
the maximum 200). -/
theorem pulse_step_session_local_witness :
    (-1 ≤ (1:ℚ)) ∧ ((1:ℚ) ≤ 1)
    ∧ ((countdownSessionInit 3).pulse_step = 0
      ∧ (countdownSessionInit 3).nebula_step = 3
      ∧ red_intensity 0 = 100
      ∧ 0 ≤ red_intensity 1 ∧ red_intensity 1 ≤ 200)
    ∧ red_intensity 1 = 200 :=
  ⟨by decide, by decide, pulse_step_session_local 3 1 (by decide) (by decide),
   by norm_num [red_intensity, pyInt]⟩

/-- C4: whenever the regime is WARNING, every one of the `NUM_LEDS` zones is
committed the identical color in that tick — the single sine-modulated red
channel `int(100 + 100 * sin(pulse_step))` with green and blue 0 — with no
per-zone stagger or offset. -/
theorem warning_zones_identical (remaining_seconds : ℤ) (nebula_step sinPulse : ℚ)
    (i j : ℕ) (hw : regime remaining_seconds = Regime.WARNING)
    (hi : i < NUM_LEDS) (hj : j < NUM_LEDS) :
    ledFrame remaining_seconds nebula_step sinPulse i
      = ledFrame remaining_seconds nebula_step sinPulse j
    ∧ (ledFrame remaining_seconds nebula_step sinPulse i).1 = red_intensity sinPulse
    ∧ (ledFrame remaining_seconds nebula_step sinPulse i).2.1 = 0
    ∧ (ledFrame remaining_seconds nebula_step sinPulse i).2.2 = 0 := by
  have hr : remaining_seconds < 1800 := by
    by_contra hnot
    simp only [regime, if_neg hnot] at hw
    exact absurd hw (by decide)
  simp [ledFrame, if_pos hr]

/-- Witness for C4 at `remaining_seconds = 10` (WARNING), zones 0 and 3. -/
theorem warning_zones_identical_witness :
    regime 10 = Regime.WARNING ∧ 0 < NUM_LEDS ∧ 3 < NUM_LEDS
    ∧ (ledFrame 10 0 0 0 = ledFrame 10 0 0 3
      ∧ (ledFrame 10 0 0 0).1 = red_intensity 0
      ∧ (ledFrame 10 0 0 0).2.1 = 0
      ∧ (ledFrame 10 0 0 0).2.2 = 0)
    ∧ ledFrame 10 0 0 0 = (100, 0, 0) :=
  ⟨by decide, by decide, by decide,
   warning_zones_identical 10 0 0 0 3 (by decide) (by decide) (by decide),
   by norm_num [ledFrame, red_intensity, pyInt]⟩

/-- C5 (code evaluation): in the countdown loop's AMBIENT branch every zone
is committed a raw, un-blended palette stop: the color is always an element
of `NEBULA_COLORS`, and at `nebula_step = 1/2`, zone 0 receives exactly stop
0, `(148, 0, 211)`, which differs from the interpolation halfway toward the
next stop, `lerp_color (148,0,211) (75,0,130) (1/2) = (111, 0, 170)`; the
interpolating behavior exists only on the idle-loop path, where
`update_nebula_color` at the same phase (with sine factor 1) does produce
the blended `(111, 0, 170)`. -/
theorem countdown_ambient_discrete_stop :
    (∀ (ns : ℚ) (i : ℕ), countdownAmbientLed ns i ∈ NEBULA_COLORS)
    ∧ countdownAmbientLed (1/2) 0 = (148, 0, 211)
    ∧ lerp_color (148, 0, 211) (75, 0, 130) (1/2) = (111, 0, 170)
    ∧ countdownAmbientLed (1/2) 0 ≠ lerp_color (148, 0, 211) (75, 0, 130) (1/2)
    ∧ nebulaLedColor (1/2) 1 0 = (111, 0, 170) := by
  refine ⟨?_, ?_, ?_, ?_, ?_⟩
  · intro ns i
    have hlen : (0:ℚ) < ((NEBULA_COLORS.length : ℕ) : ℚ) := by norm_num [NEBULA_COLORS]
    have h0 : 0 ≤ pyMod (ns + (i : ℚ)) ((NEBULA_COLORS.length : ℕ) : ℚ) :=
      pyMod_nonneg _ _ hlen
    have h7 : pyMod (ns + (i : ℚ)) ((NEBULA_COLORS.length : ℕ) : ℚ)
        < ((NEBULA_COLORS.length : ℕ) : ℚ) := pyMod_lt _ _ hlen
    have hint : pyInt (pyMod (ns + (i : ℚ)) ((NEBULA_COLORS.length : ℕ) : ℚ))
        = ⌊pyMod (ns + (i : ℚ)) ((NEBULA_COLORS.length : ℕ) : ℚ)⌋ := by
      simp only [pyInt]
      rw [if_pos h0]
    have hf0 : 0 ≤ ⌊pyMod (ns + (i : ℚ)) ((NEBULA_COLORS.length : ℕ) : ℚ)⌋ :=
      Int.le_floor.mpr (by exact_mod_cast h0)
    have hf7 : ⌊pyMod (ns + (i : ℚ)) ((NEBULA_COLORS.length : ℕ) : ℚ)⌋
        < (NEBULA_COLORS.length : ℤ) := by
      rw [Int.floor_lt]
      exact_mod_cast h7
    have hidx : (pyInt (pyMod (ns + (i : ℚ)) ((NEBULA_COLORS.length : ℕ) : ℚ))).toNat
        < NEBULA_COLORS.length := by
      rw [hint]
      omega
    simp only [countdownAmbientLed]
    rw [List.getD_eq_getElem _ _ hidx]
    exact List.getElem_mem _
  · norm_num [countdownAmbientLed, pyMod, pyInt, NEBULA_COLORS]
  · norm_num [lerp_color, pyInt]
  · norm_num [countdownAmbientLed, lerp_color, pyMod, pyInt, NEBULA_COLORS]
  · norm_num [nebulaLedColor, pyMod, pyInt, NEBULA_COLORS]

/-- C6: in every iteration of the countdown frame loop, no full-screen clear
is issued, the only rectangle fill is the countdown bounding rectangle
(whose height, 80, is less than the 480-pixel panel, so it is never the full
screen), no background image is decoded, and the only text drawn consists of
the countdown elements — so background pixels and the static info text drawn
at session setup are never erased or repainted by the loop. -/
theorem frame_clears_only_countdown_rect (m : Measured) (r : ℕ) :
    RenderOp.clearScreen ∉ frameScreenOps m r
    ∧ (∀ x y w h : ℤ, RenderOp.fillRect x y w h ∈ frameScreenOps m r →
        x = countdown_x_start m - 10 ∧ y = text_y - 35
        ∧ w = total_countdown_width m + 70 ∧ h = 80)
    ∧ (∀ p : String, RenderOp.decodeImage p ∉ frameScreenOps m r)
    ∧ (∀ (s : String) (x y : ℤ), RenderOp.text s x y ∈ frameScreenOps m r →
        s = "T-" ∨ s = ":" ∨ s = "DAYS" ∨ s = "HOURS" ∨ s = "MINS" ∨ s = "SECS"
        ∨ s = pad2 (days r) ∨ s = pad2 (hours r) ∨ s = pad2 (minutes r)
        ∨ s = pad2 (seconds r))
    ∧ (80 : ℤ) < HEIGHT := by
  refine ⟨?_, ?_, ?_, ?_, by norm_num [HEIGHT]⟩
  · simp [frameScreenOps]
  · intro x y w h hmem
    simp only [frameScreenOps, List.mem_cons, List.not_mem_nil, or_false,
      reduceCtorEq, false_or, or_false, RenderOp.fillRect.injEq] at hmem
    exact hmem
  · intro p
    simp [frameScreenOps]
  · intro s x y hmem
    simp only [frameScreenOps, List.mem_cons, List.not_mem_nil, or_false,
      reduceCtorEq, false_or, or_false, RenderOp.text.injEq] at hmem
    tauto

/-- C7: for every failing image input — non-string path, missing backing
file, unsupported format, or a decode that raises — `display_background`
returns normally (no exception reaches its caller), an ERROR-category log
entry is emitted, and the session call sequence of `display_final_ui` still
contains the info-text draw and the countdown regardless of the image. -/
theorem background_failure_returns_normally (env : BgEnv) (hfail : bgFails env) :
    (∃ out, display_background env = Except.ok out ∧ out.logs.any isErrorLog = true)
    ∧ (∀ b : Bool, SessionCall.drawInfo ∈ display_final_ui_calls b
        ∧ SessionCall.countdown ∈ display_final_ui_calls b) := by
  refine ⟨?_, ?_⟩
  · by_cases h1 : env.pathIsString = false
    · have heq : display_background env = Except.ok
          ⟨[(LogCat.ERROR, "Invalid image path (not a string).")], false, none⟩ := by
        simp [display_background, h1]
      exact ⟨_, heq, rfl⟩
    · by_cases h2 : bgFileName env.path ∈ env.listing
      · rcases hfail with h | h | ⟨e, he⟩ | ⟨hp, hj, hje⟩
        · exact absurd h h1
        · exact absurd h2 h
        · cases e with
          | osError =>
            have heq : display_background env = Except.ok
                ⟨[(LogCat.UI, "Attempting to display."),
                  (LogCat.ERROR, "OSError while opening or decoding the image.")],
                  true, none⟩ := by
              simp [display_background, h1, h2, he]
            exact ⟨_, heq, rfl⟩
          | memoryError =>
            have heq : display_background env = Except.ok
                ⟨[(LogCat.UI, "Attempting to display."),
                  (LogCat.ERROR, "MemoryError! Try smaller images or half-scale decode.")],
                  true, none⟩ := by
              simp [display_background, h1, h2, he]
            exact ⟨_, heq, rfl⟩
          | other =>
            have heq : display_background env = Except.ok
                ⟨[(LogCat.UI, "Attempting to display."),
                  (LogCat.ERROR, "Unknown error while decoding the image.")],
                  true, none⟩ := by
              simp [display_background, h1, h2, he]
            exact ⟨_, heq, rfl⟩
        · have hbt : bgTry env
              = Except.ok ([(LogCat.ERROR, "Unsupported image format.")], none) := by
            simp [bgTry, hp, hj, hje]
          have heq : display_background env = Except.ok
              ⟨[(LogCat.UI, "Attempting to display."),
                (LogCat.ERROR, "Unsupported image format.")], true, none⟩ := by
            simp [display_background, h1, h2, hbt]
          exact ⟨_, heq, rfl⟩
      · have heq : display_background env = Except.ok
            ⟨[(LogCat.ERROR, "Image file not found on SD.")], false, none⟩ := by
          simp [display_background, h1, h2]
        exact ⟨_, heq, rfl⟩
  · intro b
    cases b <;> simp [display_final_ui_calls]

/-- Witness for C7: a non-string image path. -/
theorem background_failure_returns_normally_witness :
    bgFails ⟨false, "x", [], Except.ok (0, 0), Except.ok (),
        Except.ok (0, 0), Except.ok ()⟩
    ∧ ((∃ out, display_background ⟨false, "x", [], Except.ok (0, 0), Except.ok (),
          Except.ok (0, 0), Except.ok ()⟩ = Except.ok out
          ∧ out.logs.any isErrorLog = true)
      ∧ (∀ b : Bool, SessionCall.drawInfo ∈ display_final_ui_calls b
          ∧ SessionCall.countdown ∈ display_final_ui_calls b)) :=
  ⟨Or.inl rfl, background_failure_returns_normally _ (Or.inl rfl)⟩

/-- C8: for a PNG decoded at 2x integer scale on the 480x480 panel, the
decode origin used by `display_background` is computed from the scaled
dimensions as `((480 - 2*w) // 2, (480 - 2*h) // 2)`; in particular a
declared 100x100 PNG is placed at `(140, 140)`. -/
theorem png_placement_uses_scaled_dimensions (env : BgEnv) (w h : ℕ)
    (hstr : env.pathIsString = true)
    (hfile : bgFileName env.path ∈ env.listing)
    (hpng : pyEndsWith (pyLower env.path.data) ".png".data = true)
    (hopen : env.pngOpen = Except.ok (w, h))
    (hdec : env.pngDecode = Except.ok ()) :
    pngPlacement w h = (Int.fdiv (480 - 2 * (w : ℤ)) 2, Int.fdiv (480 - 2 * (h : ℤ)) 2)
    ∧ pngPlacement 100 100 = (140, 140)
    ∧ (∃ out, display_background env = Except.ok out
        ∧ out.decodedAt = some ((pngPlacement w h).1, (pngPlacement w h).2, 2)) := by
  refine ⟨?_, by decide, ?_⟩
  · simp [pngPlacement, WIDTH, HEIGHT, mul_comm]
  · have hbt : bgTry env
        = Except.ok ([(LogCat.UI, "Image displayed successfully.")],
            some ((pngPlacement w h).1, (pngPlacement w h).2, 2)) := by
      simp [bgTry, hpng, hopen, hdec]
    have heq : display_background env = Except.ok
        ⟨[(LogCat.UI, "Attempting to display."),
          (LogCat.UI, "Image displayed successfully.")], true,
          some ((pngPlacement w h).1, (pngPlacement w h).2, 2)⟩ := by
      simp [display_background, hstr, hfile, hbt]
    exact ⟨_, heq, rfl⟩

/-- Witness for C8: path `img.png` present on the SD listing, declared
100x100, successfully decoded; the decode origin is `(140, 140)`. -/
theorem png_placement_uses_scaled_dimensions_witness :
    (true = true ∧ bgFileName "img.png" ∈ ["img.png".data]
      ∧ pyEndsWith (pyLower "img.png".data) ".png".data = true)
    ∧ (pngPlacement 100 100
        = (Int.fdiv (480 - 2 * (100 : ℤ)) 2, Int.fdiv (480 - 2 * (100 : ℤ)) 2)
      ∧ pngPlacement 100 100 = (140, 140)
      ∧ (∃ out, display_background ⟨true, "img.png", ["img.png".data],
            Except.ok (100, 100), Except.ok (), Except.ok (0, 0), Except.ok ()⟩
            = Except.ok out
          ∧ out.decodedAt = some ((pngPlacement 100 100).1, (pngPlacement 100 100).2, 2))) :=
  ⟨⟨rfl, by decide, by decide⟩,
   png_placement_uses_scaled_dimensions
     ⟨true, "img.png", ["img.png".data], Except.ok (100, 100), Except.ok (),
       Except.ok (0, 0), Except.ok ()⟩
     100 100 rfl (by decide) (by decide) rfl rfl⟩

end Main
